import Mathlib

/-!
Shallow embedding of the fireship-ext chat dispatcher and provider adapters.

The repository contains three variants of the extension entry point:
* `src/src/extension.ts` — the two-provider variant (gemini, ollama); its
  dispatcher is the `onDidReceiveMessage` callback in `activate`.
* `src/unnamed/part_001` — the original single-provider (ollama) variant.
* `src/unnamed/part_002` — the three-provider variant (vscode-lm, gemini,
  ollama), with a standalone dispatcher `handleChatMessage` and a second,
  inlined dispatcher in `activate`.

IO-bearing code is embedded as pure functions over oracles: the network
outcome of each provider call (`Except String String` for a single-shot
gemini call, a fragment list plus optional transport failure for the ollama
stream, a chunk list for the vscode-lm stream) is passed in as data, and the
sequence of `postMessage` calls that were actually delivered to the webview
is returned as a list.  A webview panel is modelled by a single `disposed`
flag: `postMessage` on a disposed panel throws, on a live panel it delivers.
An exception that escapes the modelled function (an unhandled fault past the
dispatcher boundary) is returned as `fault = some msg`.
-/

/-- Media kinds, from the `MediaType` union in extension.ts line 11. -/
inductive MediaType where
  | image
  | video
  | audio
  | text
deriving DecidableEq

/-- String form of a media kind, as produced by TS template interpolation of
the `MediaType` union value. -/
def mediaTypeStr : MediaType → String
  | .image => "image"
  | .video => "video"
  | .audio => "audio"
  | .text => "text"

/-- Model metadata record, from `interface ModelConfig` (extension.ts
lines 33-38): display name, wire model code, supported media kinds and an
optional max input size in MB. -/
structure ModelConfig where
  name : String
  modelCode : String
  supportedMedia : List MediaType
  maxInputSize : Option Nat
deriving DecidableEq

/-- The `gemini-2.0-flash` entry of `modelOptions` (extension.ts lines 43-50). -/
def geminiFlash : ModelConfig :=
  { name := "Gemini 2.0 Flash"
    modelCode := "gemini-2.0-flash-001"
    supportedMedia := [.image, .video, .audio, .text]
    maxInputSize := some 100 }

/-- The `gemini-2.0-flash-lite` entry of `modelOptions` (extension.ts lines 51-58). -/
def geminiFlashLite : ModelConfig :=
  { name := "Gemini 2.0 Flash Lite"
    modelCode := "gemini-2.0-flash-lite-preview-02-05"
    supportedMedia := [.image, .text]
    maxInputSize := some 20 }

/-- The `deepseek-r1:7b` entry of `modelOptions` (extension.ts lines 61-67). -/
def deepseekR1 : ModelConfig :=
  { name := "DeepSeek 7B"
    modelCode := "deepseek-r1:7b"
    supportedMedia := [.text]
    maxInputSize := none }

/-- Key lookup in the `modelOptions.gemini` table.  A key absent from the
table yields `none`, the embedding of the `undefined` produced by
`modelOptions.gemini[key]` in TS. -/
def modelOptionsGemini : String → Option ModelConfig
  | "gemini-2.0-flash" => some geminiFlash
  | "gemini-2.0-flash-lite" => some geminiFlashLite
  | _ => none

/-- Key lookup in the `modelOptions.ollama` table. -/
def modelOptionsOllama : String → Option ModelConfig
  | "deepseek-r1:7b" => some deepseekR1
  | _ => none

/-- The registry lookup performed by the dispatchers (extension.ts
lines 451-454): `modelOptions.gemini[message.modelKey as GeminiModelKey]`
resp. `modelOptions.ollama[...]`.  A missing `modelKey` (`undefined` index)
or an absent key yields `none`; there is no failure path in the source. -/
def lookupModel (provider : String) (modelKey : Option String) : Option ModelConfig :=
  match provider, modelKey with
  | "gemini", some k => modelOptionsGemini k
  | "ollama", some k => modelOptionsOllama k
  | _, _ => none

/-- A file as seen by `MediaProcessor`: its MIME type string (`file.type`)
and its size in bytes (`file.size`). -/
structure MediaFile where
  type : String
  size : Nat
deriving DecidableEq

/-- JS `String.startsWith`, embedded on the character lists of the strings. -/
def startsWithStr (s pat : String) : Bool :=
  pat.data.isPrefixOf s.data

/-- `MediaProcessor.detectMediaType` (extension.ts lines 84-95): classify by
MIME-type string head, defaulting to `text`. -/
def detectMediaType (file : MediaFile) : MediaType :=
  if startsWithStr file.type "image/" then .image
  else if startsWithStr file.type "video/" then .video
  else if startsWithStr file.type "audio/" then .audio
  else .text

/-- `MediaProcessor.validateMedia` (extension.ts lines 73-82).  The thrown
`Error` values are embedded as `Except.error` with the thrown message; the
`true` return as `Except.ok true`.  The size ceiling defaults to 20 MB when
`maxInputSize` is unset. -/
def validateMedia (file : MediaFile) (config : ModelConfig) : Except String Bool :=
  let mediaType := detectMediaType file
  if ¬ (config.supportedMedia.contains mediaType) then
    .error ("Media type " ++ mediaTypeStr mediaType ++ " not supported by this model")
  else if file.size > (config.maxInputSize.getD 20) * 1024 * 1024 then
    .error "File size exceeds model's maximum input size"
  else
    .ok true

/-- One message delivered to the webview: `{command:'chatResponse', text, mediaType?}`
or `{command:'error', text}`. -/
inductive UiMsg where
  | chatResponse (text : String) (mediaType : Option MediaType)
  | error (text : String)
deriving DecidableEq

/-- The UI relay channel, reduced to the one observable that matters here:
whether the webview panel has been disposed.  `postMessage` on a disposed
panel throws; on a live panel the message is delivered. -/
structure Panel where
  disposed : Bool
deriving DecidableEq

/-- A live (not disposed) panel. -/
def livePanel : Panel := ⟨false⟩

/-- A disposed panel. -/
def disposedPanel : Panel := ⟨true⟩

/-- The exception message used to model a `postMessage` call on a disposed
webview. -/
def disposedMsg : String := "Webview is disposed"

/-- The Node runtime `TypeError` message raised when `.modelCode` is read
off an `undefined` model config. -/
def typeErrorModelCode : String := "Cannot read properties of undefined (reading 'modelCode')"

/-- Result of running one handler: the posts that were actually delivered to
the webview, and the exception that escaped the handler, if any. -/
structure RunResult where
  posts : List UiMsg
  fault : Option String
deriving DecidableEq

/-- The `inlineData` part sent to the gemini multimodal API: the base64
payload (`none` when the data URL had no comma, i.e. `base64Data` was
`undefined`) and the extracted MIME type. -/
structure InlineData where
  data : Option String
  mimeType : String
deriving DecidableEq

/-- Characters the pattern before a comma: JS `s.split(',', 2)[0]`. -/
def takeUntilComma : List Char → List Char
  | [] => []
  | c :: rest => if c = ',' then [] else c :: takeUntilComma rest

/-- The characters after the first comma, `none` when there is no comma. -/
def dropPastComma : List Char → Option (List Char)
  | [] => none
  | c :: rest => if c = ',' then some rest else dropPastComma rest

/-- JS `mediaData.split(',', 2)` (extension.ts line 121): the first element
is everything before the first comma; the second is the segment between the
first and second commas, and is absent (`undefined`) when the string has no
comma. -/
def splitComma2 (s : String) : String × Option String :=
  match dropPastComma s.data with
  | none => (String.mk (takeUntilComma s.data), none)
  | some rest => (String.mk (takeUntilComma s.data), some (String.mk (takeUntilComma rest)))

/-- Is this character a JS regex line terminator (which `.` does not match)? -/
def isLineTerm (c : Char) : Bool :=
  c = '\n' || c = '\r' || c = '\u2028' || c = '\u2029'

/-- The lazy capture of `(.*?);base64` starting at the current position:
the shortest run of non-line-terminator characters followed by the literal
`";base64"`, or `none` when no such run exists at this position. -/
def lazyCapture (cs : List Char) : Option (List Char) :=
  if (";base64".data).isPrefixOf cs then some []
  else
    match cs with
    | [] => none
    | c :: rest =>
      if isLineTerm c then none
      else (lazyCapture rest).map (c :: ·)

/-- Search of the unanchored JS regex `/data:(.*?);base64/` over a character
list: the match with the earliest start wins, and at that start the capture
is the lazily-shortest one (extension.ts line 122). -/
def regexSearch (cs : List Char) : Option (List Char) :=
  match (if ("data:".data).isPrefixOf cs then lazyCapture (cs.drop 5) else none) with
  | some cap => some cap
  | none =>
    match cs with
    | [] => none
    | _ :: rest => regexSearch rest

/-- `metadata.match(/data:(.*?);base64/)?.[1] || ''` (extension.ts line 122):
the captured MIME type, or the empty string when the regex does not match. -/
def extractMimeType (metadata : String) : String :=
  match regexSearch metadata.data with
  | some cap => String.mk cap
  | none => ""

/-- The single-shot gemini network call is modelled as an oracle: `.ok text`
is a successful `generateContent` response, `.error msg` a thrown transport
or API error (including a missing API key, which surfaces at call time). -/
abbrev GeminiApi := Except String String

/-- The request body of a single-shot gemini `generateContent` call, as the
embedding records it: the user prompt part and, for the multimodal handler,
the `inlineData` media part. -/
structure GeminiRequest where
  promptText : String
  inline : Option InlineData
deriving DecidableEq

/-- `handleGeminiMultimodalRequest` (extension.ts lines 108-167; identical in
part_002 lines 111-170).  Returns the run result together with the request
that was sent over the network (`none` when the network call was never
reached).  Control flow from the source: reading `.modelCode` off an
undefined config throws a TypeError inside the outer try; otherwise the data
URL is parsed, and an unextractable MIME type throws before the network
call; the success post and the error post are each wrapped in their own
try/catch, so a disposed-panel post is swallowed and never escapes. -/
def handleGeminiMultimodalRequest (panel : Panel) (userPrompt mediaData : String)
    (mediaType : MediaType) (modelConfig : Option ModelConfig) (api : GeminiApi) :
    RunResult × Option GeminiRequest :=
  let postErrCaught : String → RunResult := fun m =>
    if panel.disposed then ⟨[], none⟩
    else ⟨[.error ("Error processing " ++ mediaTypeStr mediaType ++ ": " ++ m)], none⟩
  match modelConfig with
  | none => (postErrCaught typeErrorModelCode, none)
  | some _ =>
    let (metadata, base64Data) := splitComma2 mediaData
    let mimeType := extractMimeType metadata
    if mimeType = "" then
      (postErrCaught "Unable to extract MIME type from media data", none)
    else
      let req : GeminiRequest := ⟨userPrompt, some ⟨base64Data, mimeType⟩⟩
      match api with
      | .ok response =>
        ((if panel.disposed then ⟨[], none⟩
          else ⟨[.chatResponse response (some mediaType)], none⟩), some req)
      | .error m => (postErrCaught m, some req)

/-- `handleGeminiChatResponse` (extension.ts lines 170-200; identical in
part_002 lines 173-203).  Returns the run result and the prompt sent over
the network (`none` when the network call was never reached: with an
undefined config, reading `.modelCode` throws a TypeError before the call).
Neither the success post nor the catch-block error post is wrapped, so a
disposed-panel post throws inside the try, is converted by the catch into an
error post, and that post throws again and escapes the handler. -/
def handleGeminiChatResponse (panel : Panel) (userPrompt : String)
    (modelConfig : Option ModelConfig) (api : GeminiApi) :
    RunResult × Option String :=
  let postErrCaught : String → RunResult := fun m =>
    if panel.disposed then ⟨[], some disposedMsg⟩ else ⟨[.error ("Error: " ++ m)], none⟩
  match modelConfig with
  | none => (postErrCaught typeErrorModelCode, none)
  | some _ =>
    match api with
    | .ok response =>
      ((if panel.disposed then ⟨[], some disposedMsg⟩
        else ⟨[.chatResponse response none], none⟩), some userPrompt)
    | .error m => (postErrCaught m, some userPrompt)

/-- The ollama streaming transport, as an oracle: the fragments the stream
yielded before it either completed (`none`) or threw a transport failure
with the given message (`some msg`).  An initial connection failure is the
case `([], some msg)`. -/
abbrev OllamaStream := List String × Option String

/-- The cumulative relay loop of `handleOllamaChatResponse` (extension.ts
lines 216-219): starting from accumulated text `acc`, each fragment is
appended to the running total and the running total is posted. -/
def ollamaCumulative (acc : String) : List String → List UiMsg
  | [] => []
  | f :: fs => .chatResponse (acc ++ f) none :: ollamaCumulative (acc ++ f) fs

/-- `handleOllamaChatResponse` (extension.ts lines 203-227; identical in
part_002 lines 206-233, where it is however never called).  Returns the run
result and the `(modelCode, prompt)` sent to `ollama.chat` (`none` when the
call was never reached).  The in-loop post and the catch-block post are both
unwrapped: on a disposed panel the first fragment post throws, the catch
posts an error, that post throws again and escapes the handler. -/
def handleOllamaChatResponse (panel : Panel) (userPrompt : String)
    (modelConfig : Option ModelConfig) (stream : OllamaStream) :
    RunResult × Option (String × String) :=
  match modelConfig with
  | none =>
    ((if panel.disposed then ⟨[], some disposedMsg⟩
      else ⟨[.error ("Error: " ++ typeErrorModelCode)], none⟩), none)
  | some cfg =>
    let sent := some (cfg.modelCode, userPrompt)
    if panel.disposed then
      match stream with
      | ([], none) => (⟨[], none⟩, sent)
      | ([], some _) => (⟨[], some disposedMsg⟩, sent)
      | (_ :: _, _) => (⟨[], some disposedMsg⟩, sent)
    else
      let partials := ollamaCumulative "" stream.1
      match stream.2 with
      | none => (⟨partials, none⟩, sent)
      | some m => (⟨partials ++ [.error ("Error: " ++ m)], none⟩, sent)

/-- The configuration and host environment seen by the vscode-lm path: the
(stringified) `vsCodeLmModelSelector` setting, the candidate model ids that
`vscode.lm.selectChatModels` returns for it, and the outcome of
`sendRequest` on the chosen model — a list of stream chunks (`some s` for a
`LanguageModelTextPart` with value `s`, `none` for a chunk of another kind)
or a thrown failure. -/
structure LmEnv where
  selector : Option String
  models : List String
  sendResult : Except String (List (Option String))

/-- The message posted when the vscode-lm selector setting is absent
(part_002 lines 249-253 and 599-603). -/
def lmNotConfiguredMsg : String :=
  "Error: VS Code Language Model API is selected but fireship-ext.vsCodeLmModelSelector is not configured in settings."

/-- Accumulation over the vscode-lm response stream (part_002 lines 276-281):
only `LanguageModelTextPart` chunks contribute. -/
def lmAccumulate : List (Option String) → String
  | [] => ""
  | some s :: rest => s ++ lmAccumulate rest
  | none :: rest => lmAccumulate rest

/-- One provider-network interaction performed by a dispatcher. -/
inductive AdapterCall where
  | geminiMultimodal (req : GeminiRequest)
  | geminiText (prompt : String)
  | ollamaChat (modelCode prompt : String)
  | lmSelect (selector : String)
  | lmSend (modelId prompt : String)
deriving DecidableEq

/-- Result of one dispatcher run: delivered posts, escaped exception (if
any), and the provider-network interactions that took place, in order. -/
structure DispatchResult where
  posts : List UiMsg
  fault : Option String
  calls : List AdapterCall
deriving DecidableEq

/-- The `vscode-lm` branch of `handleChatMessage` (part_002 lines 241-291).
The missing-selector error post is outside any try and throws on a disposed
panel; the remaining posts sit inside the branch try whose catch posts
unwrapped, so on a disposed panel every path after the selector check
faults.  `models[0]` is always the model used when the candidate list is
nonempty. -/
def vsCodeLmPath (panel : Panel) (text : String) (lm : LmEnv) : DispatchResult :=
  match lm.selector with
  | none =>
    if panel.disposed then ⟨[], some disposedMsg, []⟩
    else ⟨[.error lmNotConfiguredMsg], none, []⟩
  | some sel =>
    match lm.models with
    | [] =>
      if panel.disposed then ⟨[], some disposedMsg, [.lmSelect sel]⟩
      else ⟨[.error ("Error: No VS Code Language Models found matching selector " ++ sel)],
            none, [.lmSelect sel]⟩
    | m :: _ =>
      let calls := [.lmSelect sel, .lmSend m text]
      match lm.sendResult with
      | .ok chunks =>
        if panel.disposed then ⟨[], some disposedMsg, calls⟩
        else ⟨[.chatResponse (lmAccumulate chunks) none], none, calls⟩
      | .error m₂ =>
        if panel.disposed then ⟨[], some disposedMsg, calls⟩
        else ⟨[.error ("Error: " ++ m₂)], none, calls⟩

/-- The `vscode-lm` branch of the `activate` dispatcher of part_002
(lines 592-634): same selector and candidate checks, but no `sendRequest` —
on success it posts the fixed placeholder text, and the catch adds a
`"VS Code LM API Error: "` marker to the failure message. -/
def part002ActivateVsCodeLmPath (panel : Panel) (lm : LmEnv) : DispatchResult :=
  match lm.selector with
  | none =>
    if panel.disposed then ⟨[], some disposedMsg, []⟩
    else ⟨[.error lmNotConfiguredMsg], none, []⟩
  | some sel =>
    match lm.models with
    | [] =>
      if panel.disposed then ⟨[], some disposedMsg, [.lmSelect sel]⟩
      else ⟨[.error ("Error: VS Code LM API Error: No VS Code Language Models found matching selector " ++ sel)],
            none, [.lmSelect sel]⟩
    | _ :: _ =>
      if panel.disposed then ⟨[], some disposedMsg, [.lmSelect sel]⟩
      else ⟨[.chatResponse "Result from VS Code LM API" none], none, [.lmSelect sel]⟩

/-- An inbound webview message, from `interface ChatMessage` (extension.ts
lines 24-31).  The provider tag is kept as the wire string since the
dispatchers branch on string equality and have a fall-through branch. -/
structure ChatMessage where
  command : String
  text : String
  model : Option String
  modelKey : Option String
  mediaData : Option String
  mediaType : Option MediaType
deriving DecidableEq

/-- TS template interpolation of the possibly-undefined provider tag. -/
def showOptTag : Option String → String
  | some s => s
  | none => "undefined"

/-- The network oracles a dispatcher may consult in one run. -/
structure NetEnv where
  geminiApi : GeminiApi
  ollamaStream : OllamaStream

/-- The truthiness test `message.mediaData && message.mediaType` of
extension.ts line 461: both present, and the data string nonempty (the empty
string is falsy in JS). -/
def mediaArgs (msg : ChatMessage) : Option (String × MediaType) :=
  match msg.mediaData, msg.mediaType with
  | some md, some mt => if md = "" then none else some (md, mt)
  | _, _ => none

/-- The part_002 dispatch condition (lines 306-310):
`message.mediaData && message.mediaType && modelConfig?.supportedMedia?.includes(message.mediaType)`.
With an undefined config the optional chain is falsy. -/
def mediaArgsSupported (msg : ChatMessage) (cfg : Option ModelConfig) :
    Option (String × MediaType) :=
  match mediaArgs msg, cfg with
  | some (md, mt), some c =>
    if c.supportedMedia.contains mt then some (md, mt) else none
  | _, _ => none

/-- The try/catch that the dispatchers wrap around an adapter call
(extension.ts lines 459-480): an exception escaping the adapter is caught
and posted as `Error: ...` — but that very post is unwrapped, so on a
disposed panel it throws again and the fault escapes the dispatcher. -/
def wrapOuter (panel : Panel) (r : RunResult) (calls : List AdapterCall) : DispatchResult :=
  match r.fault with
  | none => ⟨r.posts, none, calls⟩
  | some m =>
    if panel.disposed then ⟨r.posts, some disposedMsg, calls⟩
    else ⟨r.posts ++ [.error ("Error: " ++ m)], none, calls⟩

/-- The `onDidReceiveMessage` dispatcher of extension.ts `activate`
(lines 448-482).  Non-`chat` commands are ignored.  The provider tag picks
the config table and the adapter; an unknown tag hits the trailing `else`,
whose `throw new Error(...)` is outside the try block and escapes the
dispatcher uncaught.  The gemini branch goes multimodal whenever media data
and type are (truthily) present — no supported-kind check and no call to
`MediaProcessor.validateMedia`. -/
def extensionDispatch (panel : Panel) (env : NetEnv) (msg : ChatMessage) : DispatchResult :=
  if msg.command ≠ "chat" then ⟨[], none, []⟩
  else if msg.model = some "gemini" then
    let cfg := msg.modelKey.bind modelOptionsGemini
    match mediaArgs msg with
    | some (md, mt) =>
      let h := handleGeminiMultimodalRequest panel msg.text md mt cfg env.geminiApi
      wrapOuter panel h.1 (match h.2 with | some q => [.geminiMultimodal q] | none => [])
    | none =>
      let h := handleGeminiChatResponse panel msg.text cfg env.geminiApi
      wrapOuter panel h.1 (match h.2 with | some p => [.geminiText p] | none => [])
  else if msg.model = some "ollama" then
    let cfg := msg.modelKey.bind modelOptionsOllama
    let h := handleOllamaChatResponse panel msg.text cfg env.ollamaStream
    wrapOuter panel h.1 (match h.2 with | some mp => [.ollamaChat mp.1 mp.2] | none => [])
  else ⟨[], some ("Unsupported model provider: " ++ showOptTag msg.model), []⟩

/-- The shared gemini/ollama tail of both part_002 dispatchers
(lines 305-326 and 643-664): after the config lookup, supported media routes
to the multimodal handler and everything else — including every ollama
request — to the gemini text handler.  `handleOllamaChatResponse` is never
invoked by part_002. -/
def part002Tail (panel : Panel) (env : NetEnv) (msg : ChatMessage)
    (cfg : Option ModelConfig) : DispatchResult :=
  match mediaArgsSupported msg cfg with
  | some (md, mt) =>
    let h := handleGeminiMultimodalRequest panel msg.text md mt cfg env.geminiApi
    wrapOuter panel h.1 (match h.2 with | some q => [.geminiMultimodal q] | none => [])
  | none =>
    let h := handleGeminiChatResponse panel msg.text cfg env.geminiApi
    wrapOuter panel h.1 (match h.2 with | some p => [.geminiText p] | none => [])

/-- `handleChatMessage` of part_002 (lines 236-327).  The function itself
does not check `message.command`; its unknown-provider branch posts
`Unsupported model provider: ...` and returns without touching any adapter
(that post is unwrapped, so it throws on a disposed panel). -/
def handleChatMessage (panel : Panel) (env : NetEnv) (lm : LmEnv) (msg : ChatMessage) :
    DispatchResult :=
  if msg.model = some "vscode-lm" then
    vsCodeLmPath panel msg.text lm
  else if msg.model = some "gemini" then
    part002Tail panel env msg (msg.modelKey.bind modelOptionsGemini)
  else if msg.model = some "ollama" then
    part002Tail panel env msg (msg.modelKey.bind modelOptionsOllama)
  else
    if panel.disposed then ⟨[], some disposedMsg, []⟩
    else ⟨[.error ("Unsupported model provider: " ++ showOptTag msg.model)], none, []⟩

/-- The `onDidReceiveMessage` dispatcher of part_002 `activate`
(lines 588-666).  It repeats the `handleChatMessage` logic inline, except
that its vscode-lm branch never calls `sendRequest` and its unknown-provider
branch `throw`s uncaught, like extension.ts. -/
def part002ActivateDispatch (panel : Panel) (env : NetEnv) (lm : LmEnv) (msg : ChatMessage) :
    DispatchResult :=
  if msg.command ≠ "chat" then ⟨[], none, []⟩
  else if msg.model = some "vscode-lm" then
    part002ActivateVsCodeLmPath panel lm
  else if msg.model = some "gemini" then
    part002Tail panel env msg (msg.modelKey.bind modelOptionsGemini)
  else if msg.model = some "ollama" then
    part002Tail panel env msg (msg.modelKey.bind modelOptionsOllama)
  else ⟨[], some ("Unsupported model provider: " ++ showOptTag msg.model), []⟩

/-- Is this post a `{command:'error'}` message (a Failure outcome)? -/
def isErrorMsg : UiMsg → Bool
  | .error _ => true
  | _ => false

/-- Spec-side protocol shape: every delivered post strictly before the last
one is a `chatResponse` (a PartialText); a Failure, being terminal, may only
occupy the final position.  Together with reading the final post as the
terminal event, this is "zero or more PartialText followed by at most one
terminal event". -/
def noErrorBeforeLast (posts : List UiMsg) : Bool :=
  posts.dropLast.all (fun p => !isErrorMsg p)

/-- Spec-side concatenation of a fragment list ("the cumulative
concatenation of all fragments received so far"). -/
def joinAll : List String → String
  | [] => ""
  | s :: rest => s ++ joinAll rest
/-- Two character-list patterns with distinct head characters can never both
begin the same list. -/
lemma headNeExclusive (c₁ c₂ : Char) (p₁ p₂ cs : List Char) (hne : c₁ ≠ c₂)
    (h₁ : (c₁ :: p₁).isPrefixOf cs = true) (h₂ : (c₂ :: p₂).isPrefixOf cs = true) : False := by
  cases cs with
  | nil => exact absurd h₁ (by simp [List.isPrefixOf])
  | cons c cs' =>
    simp only [List.isPrefixOf, Bool.and_eq_true, beq_iff_eq] at h₁ h₂
    exact hne (h₁.1.trans h₂.1.symm)

/-- Claim C10: media kind detection is total and prefix-based — it returns
`image` / `video` / `audio` exactly when the file's MIME type string starts
with `"image/"` / `"video/"` / `"audio/"`, and `text` in every other case. -/
theorem c10_detect_media_type_total (file : MediaFile) :
    (detectMediaType file = .image ↔ startsWithStr file.type "image/" = true)
    ∧ (detectMediaType file = .video ↔ startsWithStr file.type "video/" = true)
    ∧ (detectMediaType file = .audio ↔ startsWithStr file.type "audio/" = true)
    ∧ (detectMediaType file = .text ↔
        (startsWithStr file.type "image/" = false
          ∧ startsWithStr file.type "video/" = false
          ∧ startsWithStr file.type "audio/" = false)) := by
  have hi : startsWithStr file.type "image/" = (['i','m','a','g','e','/'] : List Char).isPrefixOf file.type.data := rfl
  have hv : startsWithStr file.type "video/" = (['v','i','d','e','o','/'] : List Char).isPrefixOf file.type.data := rfl
  have ha : startsWithStr file.type "audio/" = (['a','u','d','i','o','/'] : List Char).isPrefixOf file.type.data := rfl
  cases h1 : (['i','m','a','g','e','/'] : List Char).isPrefixOf file.type.data with
  | true =>
    have h2 : (['v','i','d','e','o','/'] : List Char).isPrefixOf file.type.data = false := by
      cases h2 : (['v','i','d','e','o','/'] : List Char).isPrefixOf file.type.data with
      | true => exact absurd (headNeExclusive 'i' 'v' _ _ _ (by decide) h1 h2) not_false
      | false => rfl
    have h3 : (['a','u','d','i','o','/'] : List Char).isPrefixOf file.type.data = false := by
      cases h3 : (['a','u','d','i','o','/'] : List Char).isPrefixOf file.type.data with
      | true => exact absurd (headNeExclusive 'i' 'a' _ _ _ (by decide) h1 h3) not_false
      | false => rfl
    simp [detectMediaType, hi, hv, ha, h1, h2, h3]
  | false =>
    cases h2 : (['v','i','d','e','o','/'] : List Char).isPrefixOf file.type.data with
    | true =>
      have h3 : (['a','u','d','i','o','/'] : List Char).isPrefixOf file.type.data = false := by
        cases h3 : (['a','u','d','i','o','/'] : List Char).isPrefixOf file.type.data with
        | true => exact absurd (headNeExclusive 'v' 'a' _ _ _ (by decide) h2 h3) not_false
        | false => rfl
      simp [detectMediaType, hi, hv, ha, h1, h2, h3]
    | false =>
      cases h3 : (['a','u','d','i','o','/'] : List Char).isPrefixOf file.type.data with
      | true => simp [detectMediaType, hi, hv, ha, h1, h2, h3]
      | false => simp [detectMediaType, hi, hv, ha, h1, h2, h3]

/-- Claim C1, as stated, is false at a concrete input: for an inbound chat
message with unknown provider tag `"foo"`, the extension.ts dispatcher posts
nothing to the UI channel and an `Unsupported model provider` error escapes
the dispatcher boundary uncaught. -/
theorem c1_unknown_provider_counterexample :
    (extensionDispatch livePanel ⟨.ok "r", ([], none)⟩
        ⟨"chat", "hi", some "foo", none, none, none⟩).posts = []
    ∧ (extensionDispatch livePanel ⟨.ok "r", ([], none)⟩
        ⟨"chat", "hi", some "foo", none, none, none⟩).fault
      = some "Unsupported model provider: foo" := by
  decide

/-- Claim C1 amended: only part_002's `handleChatMessage` relays an unknown
provider tag as a Failure post without invoking any adapter and without an
escaping fault; the `activate` dispatchers of extension.ts and part_002
instead throw an uncaught `Unsupported model provider` error past the
dispatcher and post nothing. -/
theorem c1_unknown_provider_amended (env : NetEnv) (lm : LmEnv)
    (cmd text : String) (key md : Option String) (mt : Option MediaType) (tag : String)
    (h₁ : tag ≠ "vscode-lm") (h₂ : tag ≠ "gemini") (h₃ : tag ≠ "ollama") :
    handleChatMessage livePanel env lm ⟨cmd, text, some tag, key, md, mt⟩
      = ⟨[.error ("Unsupported model provider: " ++ tag)], none, []⟩
    ∧ extensionDispatch livePanel env ⟨"chat", text, some tag, key, md, mt⟩
      = ⟨[], some ("Unsupported model provider: " ++ tag), []⟩
    ∧ part002ActivateDispatch livePanel env lm ⟨"chat", text, some tag, key, md, mt⟩
      = ⟨[], some ("Unsupported model provider: " ++ tag), []⟩ := by
  refine ⟨?_, ?_, ?_⟩ <;>
    simp [handleChatMessage, extensionDispatch, part002ActivateDispatch, showOptTag,
      livePanel, h₁, h₂, h₃]

/-- Witness for C1 amended: instantiation at the concrete unknown tag `"foo"`. -/
theorem c1_unknown_provider_witness :
    handleChatMessage livePanel ⟨.ok "r", ([], none)⟩ ⟨none, [], .ok []⟩
        ⟨"chat", "hi", some "foo", none, none, none⟩
      = ⟨[.error ("Unsupported model provider: " ++ "foo")], none, []⟩
    ∧ extensionDispatch livePanel ⟨.ok "r", ([], none)⟩
        ⟨"chat", "hi", some "foo", none, none, none⟩
      = ⟨[], some ("Unsupported model provider: " ++ "foo"), []⟩
    ∧ part002ActivateDispatch livePanel ⟨.ok "r", ([], none)⟩ ⟨none, [], .ok []⟩
        ⟨"chat", "hi", some "foo", none, none, none⟩
      = ⟨[], some ("Unsupported model provider: " ++ "foo"), []⟩ :=
  c1_unknown_provider_amended ⟨.ok "r", ([], none)⟩ ⟨none, [], .ok []⟩
    "chat" "hi" none none none "foo" (by decide) (by decide) (by decide)

/-- Claim C5 is right and the code of part_002 is wrong: for the valid
no-media ollama request `(ollama, deepseek-r1:7b)`, the extension.ts
dispatcher invokes exactly the ollama adapter, but part_002's
`handleChatMessage` invokes the gemini text adapter instead
(`handleOllamaChatResponse` is defined in part_002 yet never called). -/
theorem c5_dispatch_routing :
    extensionDispatch livePanel ⟨.ok "resp", (["ok"], none)⟩
        ⟨"chat", "hi", some "ollama", some "deepseek-r1:7b", none, none⟩
      = ⟨[.chatResponse "ok" none], none, [.ollamaChat "deepseek-r1:7b" "hi"]⟩
    ∧ extensionDispatch livePanel ⟨.ok "resp", (["ok"], none)⟩
        ⟨"chat", "hi", some "gemini", some "gemini-2.0-flash", none, none⟩
      = ⟨[.chatResponse "resp" none], none, [.geminiText "hi"]⟩
    ∧ handleChatMessage livePanel ⟨.ok "resp", (["ok"], none)⟩ ⟨none, [], .ok []⟩
        ⟨"chat", "hi", some "ollama", some "deepseek-r1:7b", none, none⟩
      = ⟨[.chatResponse "resp" none], none, [.geminiText "hi"]⟩ := by
  decide

/-- Claim C7: on the host-model (vscode-lm) path of part_002 — both in
`handleChatMessage` and in the `activate` dispatcher — an unset model
selector fails with the missing-configuration message before any
model-selection query or network call; a selector matching zero candidates
fails with the no-matching-model message after only the selection query; and
with one or more candidates the first candidate in the returned list is the
one used. -/
theorem c7_vscode_lm_selector (env : NetEnv) (text sel : String)
    (key : Option String) (md : Option String) (mt : Option MediaType)
    (models : List String) (m : String) (ms : List String)
    (send : Except String (List (Option String))) :
    handleChatMessage livePanel env ⟨none, models, send⟩
        ⟨"chat", text, some "vscode-lm", key, md, mt⟩
      = ⟨[.error lmNotConfiguredMsg], none, []⟩
    ∧ handleChatMessage livePanel env ⟨some sel, [], send⟩
        ⟨"chat", text, some "vscode-lm", key, md, mt⟩
      = ⟨[.error ("Error: No VS Code Language Models found matching selector " ++ sel)],
         none, [.lmSelect sel]⟩
    ∧ (handleChatMessage livePanel env ⟨some sel, m :: ms, send⟩
        ⟨"chat", text, some "vscode-lm", key, md, mt⟩).calls
      = [.lmSelect sel, .lmSend m text]
    ∧ part002ActivateDispatch livePanel env ⟨none, models, send⟩
        ⟨"chat", text, some "vscode-lm", key, md, mt⟩
      = ⟨[.error lmNotConfiguredMsg], none, []⟩
    ∧ part002ActivateDispatch livePanel env ⟨some sel, [], send⟩
        ⟨"chat", text, some "vscode-lm", key, md, mt⟩
      = ⟨[.error ("Error: VS Code LM API Error: No VS Code Language Models found matching selector " ++ sel)],
         none, [.lmSelect sel]⟩
    ∧ part002ActivateDispatch livePanel env ⟨some sel, m :: ms, send⟩
        ⟨"chat", text, some "vscode-lm", key, md, mt⟩
      = ⟨[.chatResponse "Result from VS Code LM API" none], none, [.lmSelect sel]⟩ := by
  refine ⟨?_, ?_, ?_, ?_, ?_, ?_⟩ <;>
    (try cases send) <;>
      simp [handleChatMessage, part002ActivateDispatch, vsCodeLmPath,
        part002ActivateVsCodeLmPath, livePanel]

/-- Claim C8, as stated, is false at a concrete input: with the UI channel
disposed, relaying a one-fragment ollama stream makes the in-loop post
throw, the catch-block error post throw again, and the fault escape past the
extension.ts dispatcher. -/
theorem c8_disposed_counterexample :
    extensionDispatch disposedPanel ⟨.ok "r", (["x"], none)⟩
        ⟨"chat", "hi", some "ollama", some "deepseek-r1:7b", none, none⟩
      = ⟨[], some disposedMsg, [.ollamaChat "deepseek-r1:7b" "hi"]⟩ := by
  decide

/-- Claim C8 amended: only the hosted-multimodal adapter's posting paths
catch a disposed-channel post and silently ignore it (every run against a
disposed panel completes with no delivered posts and no escaping fault); on
the local-model path with at least one fragment and on the gemini text path,
the disposed-channel post raises, the enclosing catch's own error post
raises again, and the fault propagates. -/
theorem c8_disposed_amended :
    (∀ (prompt md : String) (mt : MediaType) (cfg : Option ModelConfig) (api : GeminiApi),
      (handleGeminiMultimodalRequest disposedPanel prompt md mt cfg api).1
        = ⟨[], none⟩)
    ∧ (∀ (prompt : String) (cfg : ModelConfig) (f : String) (fs : List String)
        (e : Option String),
      (handleOllamaChatResponse disposedPanel prompt (some cfg) (f :: fs, e)).1
        = ⟨[], some disposedMsg⟩)
    ∧ (∀ (prompt : String) (cfg : ModelConfig) (api : GeminiApi),
      (handleGeminiChatResponse disposedPanel prompt (some cfg) api).1
        = ⟨[], some disposedMsg⟩) := by
  refine ⟨?_, ?_, ?_⟩
  · intro prompt md mt cfg api
    cases cfg with
    | none => rfl
    | some c =>
      simp only [handleGeminiMultimodalRequest]
      try split
      all_goals try rfl
      all_goals cases api <;> rfl
  · intro prompt cfg f fs e
    rfl
  · intro prompt cfg api
    cases api <;> rfl

/-- Claim C9, as stated, is false at a concrete input: for the absent pair
`(gemini, "bogus")` the lookup yields no descriptor, yet no UnknownModel
failure is produced — the dispatcher proceeds into the gemini adapter with
the undefined descriptor, and the posted error is the TypeError raised there
by reading `.modelCode` off `undefined`. -/
theorem c9_lookup_counterexample :
    lookupModel "gemini" (some "bogus") = none
    ∧ extensionDispatch livePanel ⟨.ok "r", ([], none)⟩
        ⟨"chat", "hi", some "gemini", some "bogus", none, none⟩
      = ⟨[.error ("Error: " ++ typeErrorModelCode)], none, []⟩ := by
  decide

/-- Claim C9 amended: registry lookup returns the descriptor exactly when
the `(provider, modelKey)` pair is in the table and `none` when it is
absent; but an absent pair does not fail with UnknownModel — the dispatcher
proceeds into the selected provider's adapter with the missing descriptor,
where a TypeError is caught and posted as a generic error, with no network
call made. -/
theorem c9_lookup_amended :
    lookupModel "gemini" (some "gemini-2.0-flash") = some geminiFlash
    ∧ lookupModel "gemini" (some "gemini-2.0-flash-lite") = some geminiFlashLite
    ∧ lookupModel "ollama" (some "deepseek-r1:7b") = some deepseekR1
    ∧ (∀ k : String, k ≠ "gemini-2.0-flash" → k ≠ "gemini-2.0-flash-lite" →
        modelOptionsGemini k = none)
    ∧ (∀ k : String, k ≠ "deepseek-r1:7b" → modelOptionsOllama k = none)
    ∧ (∀ (env : NetEnv) (text k : String), modelOptionsGemini k = none →
        extensionDispatch livePanel env ⟨"chat", text, some "gemini", some k, none, none⟩
          = ⟨[.error ("Error: " ++ typeErrorModelCode)], none, []⟩)
    ∧ (∀ (env : NetEnv) (text k : String), modelOptionsOllama k = none →
        extensionDispatch livePanel env ⟨"chat", text, some "ollama", some k, none, none⟩
          = ⟨[.error ("Error: " ++ typeErrorModelCode)], none, []⟩) := by
  refine ⟨by decide, by decide, by decide, ?_, ?_, ?_, ?_⟩
  · intro k h₁ h₂
    simp only [modelOptionsGemini]
  · intro k h₁
    simp only [modelOptionsOllama]
  · intro env text k hk
    simp [extensionDispatch, mediaArgs, handleGeminiChatResponse, wrapOuter, hk, livePanel]
  · intro env text k hk
    simp [extensionDispatch, handleOllamaChatResponse, wrapOuter, hk, livePanel]

/-- Witness for C9 amended: instantiation at the absent keys `"nope"`. -/
theorem c9_lookup_witness :
    modelOptionsGemini "nope" = none
    ∧ modelOptionsOllama "nope" = none
    ∧ extensionDispatch livePanel ⟨.ok "r", ([], none)⟩
        ⟨"chat", "hi", some "gemini", some "nope", none, none⟩
      = ⟨[.error ("Error: " ++ typeErrorModelCode)], none, []⟩
    ∧ extensionDispatch livePanel ⟨.ok "r", ([], none)⟩
        ⟨"chat", "hi", some "ollama", some "nope", none, none⟩
      = ⟨[.error ("Error: " ++ typeErrorModelCode)], none, []⟩ :=
  ⟨c9_lookup_amended.2.2.2.1 "nope" (by decide) (by decide),
   c9_lookup_amended.2.2.2.2.1 "nope" (by decide),
   c9_lookup_amended.2.2.2.2.2.1 ⟨.ok "r", ([], none)⟩ "hi" "nope" (by decide),
   c9_lookup_amended.2.2.2.2.2.2 ⟨.ok "r", ([], none)⟩ "hi" "nope" (by decide)⟩

/-- The relay loop posts, at index `i`, the accumulated text extended by the
concatenation of the first `i + 1` fragments. -/
lemma ollamaCumulative_getElem (fs : List String) (acc : String) (i : Nat)
    (h : i < fs.length) :
    (ollamaCumulative acc fs)[i]? = some (.chatResponse (acc ++ joinAll (fs.take (i + 1))) none) := by
  induction fs generalizing acc i with
  | nil => simp at h
  | cons f fs ih =>
    cases i with
    | zero =>
      simp [ollamaCumulative, joinAll, String.append_empty]
    | succ n =>
      have hn : n < fs.length := by simpa using h
      simp only [ollamaCumulative, List.getElem?_cons_succ]
      rw [ih (acc ++ f) n hn]
      simp [joinAll, String.append_assoc]

/-- Claim C3: each PartialText relayed by the local-model streaming adapter
carries the cumulative concatenation of all fragments received so far, not
the delta; in particular for the fragments `["Hel", "lo"]` the relayed
sequence is `["Hel", "Hello"]` and the final relayed text is `"Hello"`. -/
theorem c3_cumulative_partials :
    (∀ (fs : List String) (i : Nat), i < fs.length →
      (ollamaCumulative "" fs)[i]? = some (.chatResponse (joinAll (fs.take (i + 1))) none))
    ∧ handleOllamaChatResponse livePanel "hi" (some deepseekR1) (["Hel", "lo"], none)
      = (⟨[.chatResponse "Hel" none, .chatResponse "Hello" none], none⟩,
         some ("deepseek-r1:7b", "hi")) := by
  constructor
  · intro fs i h
    have hx := ollamaCumulative_getElem fs "" i h
    simpa [String.empty_append] using hx
  · decide

/-- Witness for C3: the second relayed PartialText for fragments
`["Hel", "lo"]` is the cumulative text. -/
theorem c3_cumulative_partials_witness :
    (ollamaCumulative "" ["Hel", "lo"])[1]? = some (.chatResponse (joinAll (["Hel", "lo"].take 2)) none) :=
  c3_cumulative_partials.1 ["Hel", "lo"] 1 (by decide)

/-- Every post of the relay loop is a `chatResponse`, never an error. -/
lemma ollamaCumulative_all_ok (acc : String) (fs : List String) :
    (ollamaCumulative acc fs).all (fun p => !isErrorMsg p) = true := by
  induction fs generalizing acc with
  | nil => rfl
  | cons f fs ih =>
    simp only [ollamaCumulative, List.all_cons, Bool.and_eq_true]
    exact ⟨rfl, ih (acc ++ f)⟩

/-- A list of non-error posts satisfies the protocol shape. -/
lemma noErrorBeforeLast_of_all (l : List UiMsg)
    (h : l.all (fun p => !isErrorMsg p) = true) :
    noErrorBeforeLast l = true := by
  simp only [noErrorBeforeLast, List.all_eq_true] at h ⊢
  intro p hp
  exact h p ((List.dropLast_sublist l).subset hp)

/-- Appending a single terminal post to non-error posts keeps the protocol
shape. -/
lemma noErrorBeforeLast_concat (l : List UiMsg) (e : UiMsg)
    (h : l.all (fun p => !isErrorMsg p) = true) :
    noErrorBeforeLast (l ++ [e]) = true := by
  simp only [noErrorBeforeLast, List.dropLast_concat]
  exact h

/-- The multimodal handler delivers at most one post, never faults, and its
posts satisfy the protocol shape. -/
lemma multimodal_shape (panel : Panel) (prompt md : String) (mt : MediaType)
    (cfg : Option ModelConfig) (api : GeminiApi) :
    noErrorBeforeLast (handleGeminiMultimodalRequest panel prompt md mt cfg api).1.posts = true
    ∧ (handleGeminiMultimodalRequest panel prompt md mt cfg api).1.fault = none := by
  unfold handleGeminiMultimodalRequest
  cases cfg with
  | none => cases hd : panel.disposed <;> simp [noErrorBeforeLast, hd]
  | some c =>
    by_cases hm : extractMimeType (splitComma2 md).1 = "" <;>
      cases api <;> cases hd : panel.disposed <;> simp [noErrorBeforeLast, hm, hd]

/-- The gemini text handler delivers at most one post, and faults only with
nothing delivered. -/
lemma geminiText_shape (panel : Panel) (prompt : String)
    (cfg : Option ModelConfig) (api : GeminiApi) :
    noErrorBeforeLast (handleGeminiChatResponse panel prompt cfg api).1.posts = true
    ∧ ((handleGeminiChatResponse panel prompt cfg api).1.fault ≠ none →
        (handleGeminiChatResponse panel prompt cfg api).1.posts = []) := by
  unfold handleGeminiChatResponse
  cases cfg <;> cases api <;> cases hd : panel.disposed <;> simp [noErrorBeforeLast, hd]

/-- The ollama handler's posts satisfy the protocol shape, and it faults
only with nothing delivered. -/
lemma ollama_shape (panel : Panel) (prompt : String)
    (cfg : Option ModelConfig) (stream : OllamaStream) :
    noErrorBeforeLast (handleOllamaChatResponse panel prompt cfg stream).1.posts = true
    ∧ ((handleOllamaChatResponse panel prompt cfg stream).1.fault ≠ none →
        (handleOllamaChatResponse panel prompt cfg stream).1.posts = []) := by
  obtain ⟨fs, e⟩ := stream
  unfold handleOllamaChatResponse
  cases cfg with
  | none => cases hd : panel.disposed <;> simp [noErrorBeforeLast, hd]
  | some c =>
    cases hd : panel.disposed with
    | true => cases fs <;> cases e <;> simp [noErrorBeforeLast, hd]
    | false =>
      cases e with
      | none =>
        simp only [hd]
        exact ⟨noErrorBeforeLast_of_all _ (ollamaCumulative_all_ok "" fs), by simp⟩
      | some m =>
        simp only [hd]
        exact ⟨noErrorBeforeLast_concat _ _ (ollamaCumulative_all_ok "" fs), by simp⟩

/-- The dispatcher-side try/catch preserves the protocol shape whenever the
adapter faults only with nothing delivered. -/
lemma wrapOuter_shape (panel : Panel) (r : RunResult) (calls : List AdapterCall)
    (hpost : noErrorBeforeLast r.posts = true)
    (hf : r.fault ≠ none → r.posts = []) :
    noErrorBeforeLast (wrapOuter panel r calls).posts = true := by
  unfold wrapOuter
  cases hr : r.fault with
  | none => simpa using hpost
  | some m =>
    have hp : r.posts = [] := hf (by simp [hr])
    cases hd : panel.disposed <;> simp [hp, noErrorBeforeLast]

/-- The vscode-lm branch of `handleChatMessage` delivers at most one post. -/
lemma vsCodeLmPath_protocol (panel : Panel) (text : String) (lm : LmEnv) :
    noErrorBeforeLast (vsCodeLmPath panel text lm).posts = true := by
  obtain ⟨sel, models, send⟩ := lm
  unfold vsCodeLmPath
  cases sel <;> cases models <;> cases send <;> cases hd : panel.disposed <;>
    simp [noErrorBeforeLast, hd]

/-- The vscode-lm branch of the part_002 `activate` dispatcher delivers at
most one post. -/
lemma part002ActivateVsCodeLmPath_protocol (panel : Panel) (lm : LmEnv) :
    noErrorBeforeLast (part002ActivateVsCodeLmPath panel lm).posts = true := by
  obtain ⟨sel, models, send⟩ := lm
  unfold part002ActivateVsCodeLmPath
  cases sel <;> cases models <;> cases hd : panel.disposed <;>
    simp [noErrorBeforeLast, hd]

/-- The shared gemini/ollama tail of the part_002 dispatchers keeps the
protocol shape. -/
lemma part002Tail_protocol (panel : Panel) (env : NetEnv) (msg : ChatMessage)
    (cfg : Option ModelConfig) :
    noErrorBeforeLast (part002Tail panel env msg cfg).posts = true := by
  simp only [part002Tail]
  split
  · exact wrapOuter_shape _ _ _ (multimodal_shape _ _ _ _ _ _).1
      (fun h => absurd (multimodal_shape _ _ _ _ _ _).2 h)
  · exact wrapOuter_shape _ _ _ (geminiText_shape _ _ _ _).1 (geminiText_shape _ _ _ _).2

/-- The extension.ts dispatcher keeps the protocol shape on every input. -/
lemma extensionDispatch_protocol (panel : Panel) (env : NetEnv) (msg : ChatMessage) :
    noErrorBeforeLast (extensionDispatch panel env msg).posts = true := by
  simp only [extensionDispatch]
  split
  · rfl
  · split
    · split
      · exact wrapOuter_shape _ _ _ (multimodal_shape _ _ _ _ _ _).1
          (fun h => absurd (multimodal_shape _ _ _ _ _ _).2 h)
      · exact wrapOuter_shape _ _ _ (geminiText_shape _ _ _ _).1 (geminiText_shape _ _ _ _).2
    · split
      · exact wrapOuter_shape _ _ _ (ollama_shape _ _ _ _).1 (ollama_shape _ _ _ _).2
      · rfl

/-- `handleChatMessage` keeps the protocol shape on every input. -/
lemma handleChatMessage_protocol (panel : Panel) (env : NetEnv) (lm : LmEnv)
    (msg : ChatMessage) :
    noErrorBeforeLast (handleChatMessage panel env lm msg).posts = true := by
  simp only [handleChatMessage]
  split
  · exact vsCodeLmPath_protocol _ _ _
  · split
    · exact part002Tail_protocol _ _ _ _
    · split
      · exact part002Tail_protocol _ _ _ _
      · cases hd : panel.disposed <;> simp [noErrorBeforeLast, hd]

/-- The part_002 `activate` dispatcher keeps the protocol shape on every
input. -/
lemma part002ActivateDispatch_protocol (panel : Panel) (env : NetEnv) (lm : LmEnv)
    (msg : ChatMessage) :
    noErrorBeforeLast (part002ActivateDispatch panel env lm msg).posts = true := by
  simp only [part002ActivateDispatch]
  split
  · rfl
  · split
    · exact part002ActivateVsCodeLmPath_protocol _ _
    · split
      · exact part002Tail_protocol _ _ _ _
      · split
        · exact part002Tail_protocol _ _ _ _
        · rfl

/-- Claim C2, as stated, is false at a concrete input: an ollama stream that
completes successfully after zero fragments makes the dispatcher emit
nothing at all — zero terminal events rather than exactly one. -/
theorem c2_empty_stream_counterexample :
    extensionDispatch livePanel ⟨.ok "r", ([], none)⟩
        ⟨"chat", "hi", some "ollama", some "deepseek-r1:7b", none, none⟩
      = ⟨[], none, [.ollamaChat "deepseek-r1:7b" "hi"]⟩ := by
  decide

/-- Claim C2 amended: on every dispatcher and every input, the delivered
outcome sequence is zero or more PartialText posts followed by at most one
terminal post (a Failure may only occupy the final position, so there is
never more than one terminal event); the hosted-multimodal handler, the
gemini text handler and the host-model path each deliver exactly one post on
a live panel; and the local-model path delivers at least one post whenever
the stream yields a fragment or fails — but delivers nothing when the stream
completes with zero fragments. -/
theorem c2_outcome_protocol_amended :
    (∀ (panel : Panel) (env : NetEnv) (lm : LmEnv) (msg : ChatMessage),
      noErrorBeforeLast (extensionDispatch panel env msg).posts = true
      ∧ noErrorBeforeLast (handleChatMessage panel env lm msg).posts = true
      ∧ noErrorBeforeLast (part002ActivateDispatch panel env lm msg).posts = true)
    ∧ (∀ (prompt md : String) (mt : MediaType) (cfg : Option ModelConfig) (api : GeminiApi),
        (handleGeminiMultimodalRequest livePanel prompt md mt cfg api).1.posts.length = 1)
    ∧ (∀ (prompt : String) (cfg : Option ModelConfig) (api : GeminiApi),
        (handleGeminiChatResponse livePanel prompt cfg api).1.posts.length = 1)
    ∧ (∀ (text : String) (lm : LmEnv), (vsCodeLmPath livePanel text lm).posts.length = 1)
    ∧ (∀ (g : GeminiApi) (text f : String) (fs : List String) (e : Option String),
        (extensionDispatch livePanel ⟨g, (f :: fs, e)⟩
          ⟨"chat", text, some "ollama", some "deepseek-r1:7b", none, none⟩).posts ≠ []) := by
  refine ⟨fun panel env lm msg =>
    ⟨extensionDispatch_protocol panel env msg,
     handleChatMessage_protocol panel env lm msg,
     part002ActivateDispatch_protocol panel env lm msg⟩, ?_, ?_, ?_, ?_⟩
  · intro prompt md mt cfg api
    unfold handleGeminiMultimodalRequest
    cases cfg with
    | none => rfl
    | some c =>
      by_cases hm : extractMimeType (splitComma2 md).1 = "" <;>
        cases api <;> simp [hm, livePanel]
  · intro prompt cfg api
    unfold handleGeminiChatResponse
    cases cfg <;> cases api <;> simp [livePanel]
  · intro text lm
    obtain ⟨sel, models, send⟩ := lm
    unfold vsCodeLmPath
    cases sel <;> cases models <;> cases send <;> simp [livePanel]
  · intro g text f fs e
    cases e <;>
      simp [extensionDispatch, handleOllamaChatResponse, ollamaCumulative,
        wrapOuter, livePanel, modelOptionsOllama]

/-- Claim C4, as stated, is false at a concrete input: for a gemini
flash-lite request carrying a video attachment (a kind absent from that
descriptor's supported set), the extension.ts dispatcher invokes the
multimodal adapter's network path with the media anyway, and part_002's
`handleChatMessage` silently drops the media and invokes the text adapter's
network path — neither produces an UnsupportedMediaKind failure. -/
theorem c4_unsupported_media_counterexample :
    geminiFlashLite.supportedMedia.contains .video = false
    ∧ extensionDispatch livePanel ⟨.ok "resp", ([], none)⟩
        ⟨"chat", "hi", some "gemini", some "gemini-2.0-flash-lite",
         some "data:video/mp4;base64,AAAA", some .video⟩
      = ⟨[.chatResponse "resp" (some .video)], none,
         [.geminiMultimodal ⟨"hi", some ⟨some "AAAA", "video/mp4"⟩⟩]⟩
    ∧ handleChatMessage livePanel ⟨.ok "resp", ([], none)⟩ ⟨none, [], .ok []⟩
        ⟨"chat", "hi", some "gemini", some "gemini-2.0-flash-lite",
         some "data:video/mp4;base64,AAAA", some .video⟩
      = ⟨[.chatResponse "resp" none], none, [.geminiText "hi"]⟩ := by
  decide

/-- Claim C4 amended: `MediaProcessor.validateMedia` does reject media whose
detected kind is absent from the descriptor's supported set, before any size
check or network activity — but no dispatcher ever calls it.  A ChatRequest
whose media kind is unsupported therefore does not terminate in
`Failure(UnsupportedMediaKind)`: part_002's dispatcher drops the media and
invokes the gemini text adapter's network path, and the extension.ts
dispatcher forwards the media to the multimodal adapter's network path
unvalidated. -/
theorem c4_unsupported_media_amended :
    (∀ (file : MediaFile) (cfg : ModelConfig),
      cfg.supportedMedia.contains (detectMediaType file) = false →
      validateMedia file cfg
        = .error ("Media type " ++ mediaTypeStr (detectMediaType file)
            ++ " not supported by this model"))
    ∧ (∀ (env : NetEnv) (lm : LmEnv) (text key md : String) (mt : MediaType)
        (c : ModelConfig), modelOptionsGemini key = some c →
        c.supportedMedia.contains mt = false →
        (handleChatMessage livePanel env lm
          ⟨"chat", text, some "gemini", some key, some md, some mt⟩).calls
          = [.geminiText text])
    ∧ (∀ (env : NetEnv) (text key md : String) (mt : MediaType) (c : ModelConfig),
        modelOptionsGemini key = some c → md ≠ "" →
        extractMimeType (splitComma2 md).1 ≠ "" →
        (extensionDispatch livePanel env
          ⟨"chat", text, some "gemini", some key, some md, some mt⟩).calls
          = [.geminiMultimodal
              ⟨text, some ⟨(splitComma2 md).2, extractMimeType (splitComma2 md).1⟩⟩]) := by
  refine ⟨?_, ?_, ?_⟩
  · intro file cfg h
    have h' : detectMediaType file ∉ cfg.supportedMedia := by simpa using h
    simp [validateMedia, h']
  · intro env lm text key md mt c hc hmt
    have hmt' : mt ∉ c.supportedMedia := by simpa using hmt
    cases henv : env.geminiApi <;>
      by_cases hmd : md = "" <;>
        simp [handleChatMessage, part002Tail, mediaArgsSupported, mediaArgs,
          handleGeminiChatResponse, wrapOuter, livePanel, hc, hmt', hmd, henv]
  · intro env text key md mt c hc hmd hm
    cases henv : env.geminiApi <;>
      simp [extensionDispatch, mediaArgs, handleGeminiMultimodalRequest,
        wrapOuter, livePanel, hc, hmd, hm, henv]

/-- Witness for C4 amended: instantiation at a video file against the
flash-lite descriptor and at concrete unsupported-media requests. -/
theorem c4_unsupported_media_witness :
    validateMedia ⟨"video/mp4", 0⟩ geminiFlashLite
      = .error ("Media type " ++ mediaTypeStr (detectMediaType ⟨"video/mp4", 0⟩)
          ++ " not supported by this model")
    ∧ (handleChatMessage livePanel ⟨.ok "resp", ([], none)⟩ ⟨none, [], .ok []⟩
        ⟨"chat", "hi", some "gemini", some "gemini-2.0-flash-lite",
         some "data:audio/mpeg;base64,BBBB", some .audio⟩).calls
      = [.geminiText "hi"]
    ∧ (extensionDispatch livePanel ⟨.ok "resp", ([], none)⟩
        ⟨"chat", "hi", some "gemini", some "gemini-2.0-flash-lite",
         some "data:audio/mpeg;base64,BBBB", some .audio⟩).calls
      = [.geminiMultimodal
          ⟨"hi", some ⟨(splitComma2 "data:audio/mpeg;base64,BBBB").2,
            extractMimeType (splitComma2 "data:audio/mpeg;base64,BBBB").1⟩⟩] :=
  ⟨c4_unsupported_media_amended.1 ⟨"video/mp4", 0⟩ geminiFlashLite (by decide),
   c4_unsupported_media_amended.2.1 ⟨.ok "resp", ([], none)⟩ ⟨none, [], .ok []⟩
     "hi" "gemini-2.0-flash-lite" "data:audio/mpeg;base64,BBBB" .audio
     geminiFlashLite (by decide) (by decide),
   c4_unsupported_media_amended.2.2 ⟨.ok "resp", ([], none)⟩
     "hi" "gemini-2.0-flash-lite" "data:audio/mpeg;base64,BBBB" .audio
     geminiFlashLite (by decide) (by decide) (by decide)⟩

/-- Soundness of the lazy tail matcher: a successful capture means the
input really is that capture followed by the literal `";base64"`. -/
lemma lazyCapture_sound (cs cap : List Char) (h : lazyCapture cs = some cap) :
    ∃ post, cs = cap ++ ";base64".data ++ post := by
  induction cs generalizing cap with
  | nil => simp [lazyCapture] at h
  | cons c rest ih =>
    rw [lazyCapture] at h
    by_cases hp : ((";base64".data).isPrefixOf (c :: rest)) = true
    · rw [if_pos (by simpa using hp)] at h
      obtain ⟨t, ht⟩ := (List.isPrefixOf_iff_prefix.mp hp)
      obtain rfl : cap = [] := by simpa using h.symm
      exact ⟨t, by simpa using ht.symm⟩
    · rw [if_neg (by simpa using hp)] at h
      by_cases hl : isLineTerm c = true
      · simp [hl] at h
      · rw [if_neg (by simpa using hl)] at h
        obtain ⟨cap', hcap', rfl⟩ := Option.map_eq_some'.mp h
        obtain ⟨post, hpost⟩ := ih cap' hcap'
        exact ⟨post, by simp [hpost]⟩

/-- Soundness of the regex search: a successful capture means the input
contains an occurrence of `data:<capture>;base64`. -/
lemma regexSearch_sound (cs cap : List Char) (h : regexSearch cs = some cap) :
    ∃ pre post, cs = pre ++ "data:".data ++ cap ++ ";base64".data ++ post := by
  induction cs generalizing cap with
  | nil => simp [regexSearch, lazyCapture] at h
  | cons c rest ih =>
    rw [regexSearch] at h
    by_cases hp : (("data:".data).isPrefixOf (c :: rest)) = true
    · rw [if_pos (by simpa using hp)] at h
      obtain ⟨t, ht⟩ := (List.isPrefixOf_iff_prefix.mp hp)
      have hdrop : (c :: rest).drop 5 = t := by
        rw [← ht]
        exact List.drop_left ("data:".data) t
      cases hl : lazyCapture ((c :: rest).drop 5) with
      | some cap' =>
        rw [hl] at h
        obtain rfl : cap' = cap := by simpa using h
        obtain ⟨post, hpost⟩ := lazyCapture_sound _ _ (hdrop ▸ hl)
        refine ⟨[], post, ?_⟩
        have : (c :: rest) = "data:".data ++ t := ht.symm
        simp [this, hpost, List.append_assoc]
      | none =>
        rw [hl] at h
        obtain ⟨pre, post, hdec⟩ := ih cap h
        exact ⟨c :: pre, post, by simp [hdec]⟩
    · rw [if_neg (by simpa using hp)] at h
      obtain ⟨pre, post, hdec⟩ := ih cap h
      exact ⟨c :: pre, post, by simp [hdec]⟩

/-- Claim C6, as stated, is false at a concrete input: the MIME check is an
unanchored substring search, not a prefix check — the input
`"xdata:image/png;base64,AAAA"` lacks the `data:<mime>;base64` prefix, yet
the adapter extracts `image/png`/`AAAA` and sends the request instead of
failing with MalformedMediaEncoding. -/
theorem c6_mime_extraction_counterexample :
    startsWithStr "xdata:image/png;base64,AAAA" "data:" = false
    ∧ handleGeminiMultimodalRequest livePanel "hi" "xdata:image/png;base64,AAAA" .image
        (some geminiFlash) (.ok "resp")
      = (⟨[.chatResponse "resp" (some .image)], none⟩,
         some ⟨"hi", some ⟨some "AAAA", "image/png"⟩⟩) := by
  decide

/-- Claim C6 amended: for `mediaData = "data:image/png;base64,AAAA"` the
multimodal adapter extracts `mimeType = "image/png"` and payload `"AAAA"`;
and it fails with the MalformedMediaEncoding error, sending no request,
exactly when the regex search finds no MIME capture in the part before the
first comma — which is a substring occurrence check for
`data:<mime>;base64` (sound by `regexSearch` soundness), not a prefix
check. -/
theorem c6_mime_extraction_amended :
    handleGeminiMultimodalRequest livePanel "hi" "data:image/png;base64,AAAA" .image
        (some geminiFlash) (.ok "resp")
      = (⟨[.chatResponse "resp" (some .image)], none⟩,
         some ⟨"hi", some ⟨some "AAAA", "image/png"⟩⟩)
    ∧ (∀ (prompt md : String) (mt : MediaType) (cfg : ModelConfig) (api : GeminiApi),
        extractMimeType (splitComma2 md).1 = "" →
        handleGeminiMultimodalRequest livePanel prompt md mt (some cfg) api
          = (⟨[.error ("Error processing " ++ mediaTypeStr mt ++ ": "
              ++ "Unable to extract MIME type from media data")], none⟩, none))
    ∧ (∀ (cs cap : List Char), regexSearch cs = some cap →
        ∃ pre post, cs = pre ++ "data:".data ++ cap ++ ";base64".data ++ post) := by
  refine ⟨by decide, ?_, regexSearch_sound⟩
  intro prompt md mt cfg api hm
  simp [handleGeminiMultimodalRequest, livePanel, hm]

/-- Witness for C6 amended: the extraction failure at the markerless input
`"hello,world"`, and the soundness instance at `"data:x;base64"`. -/
theorem c6_mime_extraction_witness :
    handleGeminiMultimodalRequest livePanel "hi" "hello,world" .text
        (some geminiFlash) (.ok "resp")
      = (⟨[.error ("Error processing " ++ mediaTypeStr .text ++ ": "
          ++ "Unable to extract MIME type from media data")], none⟩, none)
    ∧ ∃ pre post,
        "data:x;base64".data = pre ++ "data:".data ++ ['x'] ++ ";base64".data ++ post :=
  ⟨c6_mime_extraction_amended.2.1 "hi" "hello,world" .text geminiFlash (.ok "resp") (by decide),
   c6_mime_extraction_amended.2.2 ("data:x;base64".data) ['x'] (by decide)⟩
